import Mathlib

/-!
Shallow embedding of the conversation-relay core of the repository
(Go sources: src/api/chat.go, src/unnamed/part_000, src/unnamed/part_001).

The repository contains two full-history Gemini relay variants:
  * `Part001` — src/unnamed/part_001: pass-through normalization, endpoint
    gemini-2.0-flash-exp.
  * `ChatGo` — the first document of src/api/chat.go: primed + legacy-skip
    normalization (two fixed turns prepended, first two caller turns dropped),
    endpoint gemini-2.5-flash.  The second document of src/api/chat.go holds a
    single-message OpenAI variant (`callOpenAI`), also embedded under `ChatGo`.

Pure data flow is translated directly; the HTTP transport is abstracted as an
oracle `GeminiRequest → Except String ProviderHTTP` (an `Except.error` models a
failure of `client.Do`, an `Except.ok` models a provider HTTP response whose
JSON-decode outcome is carried explicitly).  Generation-parameter floats are
embedded as exact rationals (they are only stored, never computed with).
-/

/-- `ChatMessage` struct (src/api/chat.go:14, src/unnamed/part_001:14):
`Sender string`, `Text string`. -/
structure ChatMessage where
  sender : String
  text : String
deriving DecidableEq, Repr

/-- `GeminiPart` struct: `Text string`. -/
structure GeminiPart where
  text : String
deriving DecidableEq, Repr

/-- `GeminiContent` struct: `Role string`, `Parts []GeminiPart`. -/
structure GeminiContent where
  role : String
  parts : List GeminiPart
deriving DecidableEq, Repr

/-- `GenerationConfig` struct: five fields, all serialized on every request.
`Temperature`/`TopP` are `float32` in Go; they are only ever set to literal
constants, so they are embedded as exact rationals. -/
structure GenerationConfig where
  temperature : Rat
  topK : Int
  topP : Rat
  maxOutputTokens : Int
  stopSequences : List String
deriving DecidableEq, Repr

/-- `GeminiRequest` struct: `Contents []GeminiContent`,
`GenerationConfig GenerationConfig`. -/
structure GeminiRequest where
  contents : List GeminiContent
  generationConfig : GenerationConfig
deriving DecidableEq, Repr

/-- Inner anonymous struct of `GeminiResponse.Candidates[i].Content`:
`Parts []GeminiPart`. -/
structure GeminiCandidateContent where
  parts : List GeminiPart
deriving DecidableEq, Repr

/-- One element of `GeminiResponse.Candidates`. -/
structure GeminiCandidate where
  content : GeminiCandidateContent
deriving DecidableEq, Repr

/-- `GeminiResponse` struct: `Candidates [...]`. -/
structure GeminiResponse where
  candidates : List GeminiCandidate
deriving DecidableEq, Repr

/-- A provider HTTP response as observed by `callGemini` after `client.Do`
succeeds: the status code, the raw body bytes (read by `io.ReadAll` on the
non-success path), and the outcome of `json.Decode` of the body into
`GeminiResponse` (the success path streams the decode; JSON parsing itself is
library code and is carried as its result). -/
structure ProviderHTTP where
  statusCode : Nat
  body : String
  decoded : Except String GeminiResponse

/-- Classified failure values of the gateway helpers (the Go code returns
these as `error` values; each constructor records the data the corresponding
`fmt.Errorf`/returned error carries). -/
inductive GatewayError where
  /-- The error returned when `client.Do` fails.  In Go this is the
  `*url.Error` produced by `net/http`, rendered here as its message string. -/
  | transport (msg : String)
  /-- `fmt.Errorf("... API error (%d): %s", resp.StatusCode, bodyBytes)`:
  carries the non-success status code and the full response body. -/
  | providerHTTP (status : Nat) (body : String)
  /-- A `json.Decode` failure on a success-status response body. -/
  | decodeErr (msg : String)
  /-- `fmt.Errorf("OpenAI API error (%d): %v", resp.StatusCode, errResp)`:
  carries the non-success status and the rendering of the decoded error body. -/
  | openAIHTTP (status : Nat) (errRendered : String)
  /-- `fmt.Errorf("no reply from AI")` in `callOpenAI`. -/
  | noReply
deriving DecidableEq, Repr

/-- The `(string, error)` pair returned by `callGemini`/`callOpenAI`, as a sum:
`reply s` is `(s, nil)`, `err e` is `("", e)`. -/
inductive CallResult where
  | reply (text : String)
  | err (e : GatewayError)
deriving DecidableEq, Repr

/-- Message rendered by `(*url.Error).Error()` for a failed `client.Do`:
Go `net/http` wraps any request failure in `*url.Error{Op, URL, Err}`, whose
message is `Op "URL": Err` — it embeds the full request URL. -/
def urlErrorString (op url msg : String) : String :=
  op ++ " \x22" ++ url ++ "\x22: " ++ msg

/-- The loop body shared by both `callGemini` variants
(src/unnamed/part_001:102-114, src/api/chat.go:127-139): `Sender == "user"`
maps to role `user`, every other sender maps to role `model`, and the text is
wrapped as a single part. -/
def mapMessage (msg : ChatMessage) : GeminiContent :=
  { role := if msg.sender = "user" then "user" else "model"
    parts := [{ text := msg.text }] }

/-- Fixed fallback reply returned when a success response has no usable text
(src/api/chat.go:185, src/unnamed/part_001:155). -/
def fallbackReply : String :=
  "I\x27m sorry, I couldn\x27t process that response."

/-- Response handling shared by both `callGemini` variants, i.e. the code
after `client.Do` succeeds (src/unnamed/part_001:139-155,
src/api/chat.go:167-185): non-OK status returns the status and full body as an
error; a decode failure is returned as an error; then text is extracted only
when there is at least one candidate whose first candidate has at least one
part, otherwise the fixed fallback reply is returned with no error. -/
def classifyGeminiResponse (resp : ProviderHTTP) : CallResult :=
  if resp.statusCode ≠ 200 then
    .err (.providerHTTP resp.statusCode resp.body)
  else
    match resp.decoded with
    | .error e => .err (.decodeErr e)
    | .ok geminiResp =>
      match geminiResp.candidates with
      | [] => .reply fallbackReply
      | c :: _ =>
        match c.content.parts with
        | [] => .reply fallbackReply
        | p :: _ => .reply p.text

namespace Part001

/-- `apiURL` of src/unnamed/part_001:96: the fixed endpoint with the API key
appended as a query parameter. -/
def apiURL (apiKey : String) : String :=
  "https://generativelanguage.googleapis.com/v1beta/models/gemini-2.0-flash-exp:generateContent?key="
    ++ apiKey

/-- The `reqBody` built by src/unnamed/part_001:99-125: every message of the
history is converted in order by the role-mapping loop, and the fixed
generation config `{Temperature: 1.0, TopK: 40, TopP: 0.95,
MaxOutputTokens: 8192, StopSequences: []}` is attached. -/
def buildRequest (messages : List ChatMessage) : GeminiRequest :=
  { contents := messages.map mapMessage
    generationConfig :=
      { temperature := 1
        topK := 40
        topP := 19 / 20
        maxOutputTokens := 8192
        stopSequences := [] } }

/-- `callGemini` of src/unnamed/part_001:95-156.  `transport` abstracts the
`client.Do` call on the built request; its failure is wrapped exactly as Go
returns it (a `url.Error` whose message embeds the request URL, hence the
API key). -/
def callGemini (messages : List ChatMessage) (apiKey : String)
    (transport : GeminiRequest → Except String ProviderHTTP) : CallResult :=
  match transport (buildRequest messages) with
  | .error e => .err (.transport (urlErrorString "Post" (apiURL apiKey) e))
  | .ok resp => classifyGeminiResponse resp

end Part001

namespace ChatGo

/-- `apiURL` of src/api/chat.go:95: the fixed endpoint with the API key
appended as a query parameter. -/
def apiURL (apiKey : String) : String :=
  "https://generativelanguage.googleapis.com/v1beta/models/gemini-2.5-flash:generateContent?key="
    ++ apiKey

/-- The fixed system-instruction turn prepended first
(src/api/chat.go:100-105). -/
def systemInstruction : GeminiContent :=
  { role := "user"
    parts := [{ text := "You are a helpful, general-purpose chatbot. Please continue the conversation. If you are asked for a recipe, provide it." }] }

/-- The fixed model opening-line turn prepended second
(src/api/chat.go:108-113). -/
def modelHello : GeminiContent :=
  { role := "model"
    parts := [{ text := "Hello! I\x27m ready to chat. How can I help you?" }] }

/-- The `reqBody` built by src/api/chat.go:100-153: the two fixed turns, then
the messages after the first two (`messages[2:]` when `len > 2`, nothing
otherwise — `List.drop 2` computes exactly that) converted by the role-mapping
loop, with the fixed generation config `{Temperature: 0.7, TopK: 1, TopP: 1.0,
MaxOutputTokens: 2048, StopSequences: []}`. -/
def buildRequest (messages : List ChatMessage) : GeminiRequest :=
  { contents := systemInstruction :: modelHello :: (messages.drop 2).map mapMessage
    generationConfig :=
      { temperature := 7 / 10
        topK := 1
        topP := 1
        maxOutputTokens := 2048
        stopSequences := [] } }

/-- `callGemini` of src/api/chat.go:94-186.  `transport` abstracts the
`client.Do` call on the built request; its failure is wrapped exactly as Go
returns it (a `url.Error` whose message embeds the request URL, hence the
API key). -/
def callGemini (messages : List ChatMessage) (apiKey : String)
    (transport : GeminiRequest → Except String ProviderHTTP) : CallResult :=
  match transport (buildRequest messages) with
  | .error e => .err (.transport (urlErrorString "Post" (apiURL apiKey) e))
  | .ok resp => classifyGeminiResponse resp

end ChatGo

/-- `OpenAIMessage` struct (second document of src/api/chat.go): `Role`,
`Content`. -/
structure OpenAIMessage where
  role : String
  content : String
deriving DecidableEq, Repr

/-- `OpenAIRequest` struct: `Model`, `Messages`. -/
structure OpenAIRequest where
  model : String
  messages : List OpenAIMessage
deriving DecidableEq, Repr

/-- One element of `OpenAIResponse.Choices`: holds a `Message`. -/
structure OpenAIChoice where
  message : OpenAIMessage
deriving DecidableEq, Repr

/-- `OpenAIResponse` struct: `Choices [...]`. -/
structure OpenAIResponse where
  choices : List OpenAIChoice
deriving DecidableEq, Repr

/-- A provider HTTP response as observed by `callOpenAI` after `client.Do`
succeeds: status code, the `%v` rendering of the error body decoded into a map
(used on the non-success path), and the outcome of `json.Decode` of the body
into `OpenAIResponse` (used on the success path). -/
structure OpenAIHTTP where
  statusCode : Nat
  errRendered : String
  decoded : Except String OpenAIResponse

namespace ChatGo

/-- `callOpenAI` of the second document of src/api/chat.go (lines 290-326):
builds a fixed single-user-message request from the prompt; a non-success
status returns the status and decoded error body as an error; a decode failure
is an error; a response with at least one choice returns its first message
content; zero choices return the error `no reply from AI`.  The API key is
sent as a bearer header, not in the URL. -/
def callOpenAI (prompt : String) (apiKey : String)
    (transport : OpenAIRequest → Except String OpenAIHTTP) : CallResult :=
  let reqBody : OpenAIRequest :=
    { model := "gpt-3.5-turbo"
      messages := [{ role := "user", content := prompt }] }
  match transport reqBody with
  | .error e =>
    .err (.transport (urlErrorString "Post" "https://api.openai.com/v1/chat/completions" e))
  | .ok resp =>
    if resp.statusCode ≠ 200 then
      .err (.openAIHTTP resp.statusCode resp.errRendered)
    else
      match resp.decoded with
      | .error e => .err (.decodeErr e)
      | .ok openAIResp =>
        match openAIResp.choices with
        | [] => .err .noReply
        | c :: _ => .reply c.message.content

end ChatGo

/-- Whether the character list `pat` is an initial segment of `l`. -/
def listHasPre : List Char → List Char → Bool
  | [], _ => true
  | _ :: _, [] => false
  | p :: ps, c :: cs => p == c && listHasPre ps cs

/-- Whether the character list `pat` occurs contiguously inside `l`. -/
def listHasSub (pat : List Char) : List Char → Bool
  | [] => listHasPre pat []
  | c :: cs => listHasPre pat (c :: cs) || listHasSub pat cs

/-- Whether `pat` occurs as a substring of `s`. -/
def strHasSub (s pat : String) : Bool :=
  listHasSub pat.toList s.toList

/-! ### Substring lemmas for the credential-leak analysis -/

lemma listHasPre_self_append (pat l : List Char) :
    listHasPre pat (pat ++ l) = true := by
  induction pat with
  | nil => rfl
  | cons p ps ih => simp [listHasPre, ih]

lemma listHasSub_of_pre (pat l : List Char) (h : listHasPre pat l = true) :
    listHasSub pat l = true := by
  cases l with
  | nil =>
    cases pat with
    | nil => rfl
    | cons p ps => simp [listHasPre] at h
  | cons c cs => simp [listHasSub, h]

lemma listHasSub_append (l1 pat l2 : List Char) :
    listHasSub pat (l1 ++ (pat ++ l2)) = true := by
  induction l1 with
  | nil => exact listHasSub_of_pre _ _ (listHasPre_self_append pat l2)
  | cons c cs ih => simp [listHasSub, ih]

lemma strHasSub_of_data (s pat : String) (a b : List Char)
    (h : s.data = a ++ (pat.data ++ b)) : strHasSub s pat = true := by
  have : strHasSub s pat = listHasSub pat.data s.data := rfl
  rw [this, h]
  exact listHasSub_append a pat.data b

/-- Every transport-failure message wraps the request URL of the ChatGo
variant, so it contains the caller-supplied API key as a substring. -/
lemma transportMsg_hasKey (apiKey e : String) :
    strHasSub (urlErrorString "Post" (ChatGo.apiURL apiKey) e) apiKey = true := by
  apply strHasSub_of_data _ _
    ("Post \x22https://generativelanguage.googleapis.com/v1beta/models/gemini-2.5-flash:generateContent?key=".data)
    ("\x22: ".data ++ e.data)
  simp [urlErrorString, ChatGo.apiURL, String.data_append]

/-! ### Named provider oracles and responses used by concrete scenarios -/

/-- A success response with one candidate and one part `hello`. -/
def helloResp : ProviderHTTP :=
  { statusCode := 200, body := ""
    decoded := .ok { candidates := [{ content := { parts := [{ text := "hello" }] } }] } }

/-- A transport oracle that always delivers `helloResp`. -/
def helloOracle : GeminiRequest → Except String ProviderHTTP :=
  fun _ => .ok helloResp

/-- A success response with one candidate and one part, marked `A`. -/
def calledRespA : ProviderHTTP :=
  { statusCode := 200, body := ""
    decoded := .ok { candidates := [{ content := { parts := [{ text := "PROVIDER CALLED A" }] } }] } }

/-- A transport oracle that always delivers `calledRespA`. -/
def calledOracleA : GeminiRequest → Except String ProviderHTTP :=
  fun _ => .ok calledRespA

/-- A success response with one candidate and one part, marked `B`. -/
def calledRespB : ProviderHTTP :=
  { statusCode := 200, body := ""
    decoded := .ok { candidates := [{ content := { parts := [{ text := "PROVIDER CALLED B" }] } }] } }

/-- A transport oracle that always delivers `calledRespB`. -/
def calledOracleB : GeminiRequest → Except String ProviderHTTP :=
  fun _ => .ok calledRespB

/-- A rate-limit response: status 429 with an error body. -/
def rateLimitedResp : ProviderHTTP :=
  { statusCode := 429, body := "\x7b\x22error\x22:\x22rate limited\x22\x7d"
    decoded := .error "unread" }

/-- A transport oracle that always delivers `rateLimitedResp`. -/
def rateLimitedOracle : GeminiRequest → Except String ProviderHTTP :=
  fun _ => .ok rateLimitedResp

/-- A success response whose candidate list is empty. -/
def emptyCandResp : ProviderHTTP :=
  { statusCode := 200, body := "", decoded := .ok { candidates := [] } }

/-- A transport oracle that always delivers `emptyCandResp`. -/
def emptyCandOracle : GeminiRequest → Except String ProviderHTTP :=
  fun _ => .ok emptyCandResp

/-- A transport oracle that always fails with a connection error. -/
def failOracle : GeminiRequest → Except String ProviderHTTP :=
  fun _ => .error "dial tcp: connection refused"

/-- A success OpenAI response whose choice list is empty. -/
def emptyChoicesResp : OpenAIHTTP :=
  { statusCode := 200, errRendered := "", decoded := .ok { choices := [] } }

/-- A transport oracle that always delivers `emptyChoicesResp`. -/
def emptyChoicesOracle : OpenAIRequest → Except String OpenAIHTTP :=
  fun _ => .ok emptyChoicesResp

/-! ### Claim theorems -/

/-- C5: for every provider response with success status that parses and has at
least one candidate with at least one text part, both Gemini gateway variants
return the first candidate's first part's text verbatim as the reply, with no
error and no changes; `{text: "hello"}` yields reply `"hello"`. -/
theorem C5_verbatim_first_part (msgs : List ChatMessage) (key : String)
    (p q : GeminiRequest → Except String ProviderHTTP)
    (resp : ProviderHTTP) (g : GeminiResponse) (c : GeminiCandidate)
    (cs : List GeminiCandidate) (pt : GeminiPart) (pts : List GeminiPart)
    (hs : resp.statusCode = 200) (hd : resp.decoded = .ok g)
    (hc : g.candidates = c :: cs) (hparts : c.content.parts = pt :: pts)
    (hP : p (Part001.buildRequest msgs) = .ok resp)
    (hQ : q (ChatGo.buildRequest msgs) = .ok resp) :
    Part001.callGemini msgs key p = .reply pt.text ∧
    ChatGo.callGemini msgs key q = .reply pt.text := by
  have hclass : classifyGeminiResponse resp = .reply pt.text := by
    simp [classifyGeminiResponse, hs, hd, hc, hparts]
  exact ⟨by simp [Part001.callGemini, hP, hclass],
         by simp [ChatGo.callGemini, hQ, hclass]⟩

/-- Witness for C5 at the concrete one-candidate/one-part response `hello`. -/
theorem C5_verbatim_first_part_witness :
    Part001.callGemini [] "key" helloOracle = .reply "hello" ∧
    ChatGo.callGemini [] "key" helloOracle = .reply "hello" :=
  C5_verbatim_first_part [] "key" helloOracle helloOracle helloResp
    { candidates := [{ content := { parts := [{ text := "hello" }] } }] }
    { content := { parts := [{ text := "hello" }] } } []
    { text := "hello" } [] rfl rfl rfl rfl rfl rfl

/-- C9: for every provider response with a non-success status code, both
Gemini gateway variants return an error carrying that status code and the full
response body, not a reply. -/
theorem C9_http_error (msgs : List ChatMessage) (key : String)
    (p q : GeminiRequest → Except String ProviderHTTP) (resp : ProviderHTTP)
    (hs : resp.statusCode ≠ 200)
    (hP : p (Part001.buildRequest msgs) = .ok resp)
    (hQ : q (ChatGo.buildRequest msgs) = .ok resp) :
    Part001.callGemini msgs key p = .err (.providerHTTP resp.statusCode resp.body) ∧
    ChatGo.callGemini msgs key q = .err (.providerHTTP resp.statusCode resp.body) := by
  have hclass : classifyGeminiResponse resp =
      .err (.providerHTTP resp.statusCode resp.body) := by
    simp [classifyGeminiResponse, hs]
  exact ⟨by simp [Part001.callGemini, hP, hclass],
         by simp [ChatGo.callGemini, hQ, hclass]⟩

/-- Witness for C9 at a concrete 429 rate-limit response. -/
theorem C9_http_error_witness :
    Part001.callGemini [] "key" rateLimitedOracle =
      .err (.providerHTTP 429 "\x7b\x22error\x22:\x22rate limited\x22\x7d") ∧
    ChatGo.callGemini [] "key" rateLimitedOracle =
      .err (.providerHTTP 429 "\x7b\x22error\x22:\x22rate limited\x22\x7d") :=
  C9_http_error [] "key" rateLimitedOracle rateLimitedOracle rateLimitedResp
    (by decide) rfl rfl

/-- C10: every provider request built by either Gemini gateway variant carries
all five GenerationConfig fields at fixed constant values independent of the
input, with an empty stop-sequence list (ChatGo: 0.7 / 1 / 1.0 / 2048 / [];
Part001: 1.0 / 40 / 0.95 / 8192 / []). -/
theorem C10_fixed_generation_config (msgs m1 m2 : List ChatMessage) :
    (ChatGo.buildRequest msgs).generationConfig =
      { temperature := 7 / 10, topK := 1, topP := 1
        maxOutputTokens := 2048, stopSequences := [] } ∧
    (Part001.buildRequest msgs).generationConfig =
      { temperature := 1, topK := 40, topP := 19 / 20
        maxOutputTokens := 8192, stopSequences := [] } ∧
    (ChatGo.buildRequest m1).generationConfig = (ChatGo.buildRequest m2).generationConfig ∧
    (Part001.buildRequest m1).generationConfig = (Part001.buildRequest m2).generationConfig :=
  ⟨rfl, rfl, rfl, rfl⟩

/-- C7: for every input of exactly five turns, the Primed+Legacy-skip variant
drops the first two input turns and prepends the fixed system-instruction and
opening-line turns, yielding exactly those two fixed turns followed by the
images of input turns 2, 3, 4 — five normalized turns in that order. -/
theorem C7_legacy_skip (msgs : List ChatMessage) (h : msgs.length = 5) :
    (ChatGo.buildRequest msgs).contents =
      [ChatGo.systemInstruction, ChatGo.modelHello,
        mapMessage (msgs.get ⟨2, by omega⟩),
        mapMessage (msgs.get ⟨3, by omega⟩),
        mapMessage (msgs.get ⟨4, by omega⟩)] ∧
    (ChatGo.buildRequest msgs).contents.length = 5 := by
  rcases msgs with _ | ⟨a, _ | ⟨b, _ | ⟨c, _ | ⟨d, _ | ⟨e, _ | ⟨f, t⟩⟩⟩⟩⟩⟩
  · simp at h
  · simp at h
  · simp at h
  · simp at h
  · simp at h
  · exact ⟨rfl, rfl⟩
  · simp at h

/-- A concrete five-turn input for the Legacy-skip scenario. -/
def fiveMsgs : List ChatMessage :=
  [⟨"user", "m1"⟩, ⟨"bot", "m2"⟩, ⟨"user", "m3"⟩, ⟨"bot", "m4"⟩, ⟨"user", "m5"⟩]

/-- Witness for C7 at a concrete five-turn input. -/
theorem C7_legacy_skip_witness :
    (ChatGo.buildRequest fiveMsgs).contents =
      [ChatGo.systemInstruction, ChatGo.modelHello,
        { role := "user", parts := [{ text := "m3" }] },
        { role := "model", parts := [{ text := "m4" }] },
        { role := "user", parts := [{ text := "m5" }] }] ∧
    (ChatGo.buildRequest fiveMsgs).contents.length = 5 :=
  C7_legacy_skip fiveMsgs rfl

/-- A concrete single-turn input (two or fewer messages). -/
def shortMsgs : List ChatMessage := [⟨"user", "hi"⟩]

/-- C8: in the Primed+Legacy-skip variant the first two inbound messages never
influence the provider request (any two inputs agreeing from index 2 onward
build identical requests); any input with at most two messages yields exactly
the two fixed turns, whose last role is `model`, and the provider is still
called — the result is the classification of whatever the provider returns. -/
theorem C8_first_two_ignored (m1 m2 m : List ChatMessage) (k : String)
    (p : GeminiRequest → Except String ProviderHTTP) (resp : ProviderHTTP)
    (hdrop : m1.drop 2 = m2.drop 2) (hlen : m.length ≤ 2)
    (hp : p (ChatGo.buildRequest m) = .ok resp) :
    ChatGo.buildRequest m1 = ChatGo.buildRequest m2 ∧
    (ChatGo.buildRequest m).contents = [ChatGo.systemInstruction, ChatGo.modelHello] ∧
    ((ChatGo.buildRequest m).contents.getLast?).map GeminiContent.role = some "model" ∧
    ChatGo.callGemini m k p = classifyGeminiResponse resp := by
  have hm : m.drop 2 = [] := List.drop_eq_nil_of_le hlen
  have h2 : (ChatGo.buildRequest m).contents =
      [ChatGo.systemInstruction, ChatGo.modelHello] := by
    simp [ChatGo.buildRequest, hm]
  refine ⟨by simp [ChatGo.buildRequest, hdrop], h2, by rw [h2]; rfl,
    by simp [ChatGo.callGemini, hp]⟩

/-- Witness for C8 at concrete inputs: two three-message lists differing only
in their first two messages, and a one-message list. -/
theorem C8_first_two_ignored_witness :
    ChatGo.buildRequest [⟨"user", "a"⟩, ⟨"bot", "b"⟩, ⟨"user", "tail"⟩] =
      ChatGo.buildRequest [⟨"bot", "x"⟩, ⟨"user", "y"⟩, ⟨"user", "tail"⟩] ∧
    (ChatGo.buildRequest shortMsgs).contents =
      [ChatGo.systemInstruction, ChatGo.modelHello] ∧
    ((ChatGo.buildRequest shortMsgs).contents.getLast?).map GeminiContent.role =
      some "model" ∧
    ChatGo.callGemini shortMsgs "key" helloOracle = classifyGeminiResponse helloResp :=
  C8_first_two_ignored [⟨"user", "a"⟩, ⟨"bot", "b"⟩, ⟨"user", "tail"⟩]
    [⟨"bot", "x"⟩, ⟨"user", "y"⟩, ⟨"user", "tail"⟩] shortMsgs "key"
    helloOracle helloResp rfl (by decide) rfl

/-- C1 counterexample: on the empty inbound message list the pass-through
gateway does not fail — no request-shape error value even exists — and the
result is whatever reply the provider delivers, so the provider is called
(two oracles delivering different replies yield different results). -/
theorem C1_counterexample :
    Part001.callGemini [] "key" calledOracleA = .reply "PROVIDER CALLED A" ∧
    Part001.callGemini [] "key" calledOracleB = .reply "PROVIDER CALLED B" :=
  ⟨rfl, rfl⟩

/-- C1 amended: no request-shape validation exists; for every inbound message
list — including the empty list and lists whose mapped sequence does not end
in a `user` role — the gateway builds the request (empty contents for the
empty list) and invokes the provider, returning exactly the classification of
the provider's response. -/
theorem C1_amended (msgs : List ChatMessage) (key : String)
    (p : GeminiRequest → Except String ProviderHTTP) (resp : ProviderHTTP)
    (hp : p (Part001.buildRequest msgs) = .ok resp) :
    (Part001.buildRequest []).contents = [] ∧
    Part001.callGemini msgs key p = classifyGeminiResponse resp := by
  exact ⟨rfl, by simp [Part001.callGemini, hp]⟩

/-- Witness for the amended C1 at the empty message list. -/
theorem C1_amended_witness :
    (Part001.buildRequest []).contents = [] ∧
    Part001.callGemini [] "key" calledOracleA = classifyGeminiResponse calledRespA :=
  C1_amended [] "key" calledOracleA calledRespA rfl

/-- C2 counterexample: on a transport failure the error value returned by the
gateway (and surfaced verbatim by the handler) wraps the request URL, which
carries the API key as a query parameter — the key `SECRET-KEY-123` occurs
inside the surfaced error message. -/
theorem C2_counterexample :
    ChatGo.callGemini [] "SECRET-KEY-123" failOracle =
      .err (.transport
        ("Post \x22https://generativelanguage.googleapis.com/v1beta/models/gemini-2.5-flash:generateContent?key="
          ++ "SECRET-KEY-123" ++ "\x22: dial tcp: connection refused")) ∧
    strHasSub
      (urlErrorString "Post" (ChatGo.apiURL "SECRET-KEY-123")
        "dial tcp: connection refused")
      "SECRET-KEY-123" = true :=
  ⟨rfl, by decide⟩

/-- C2 amended: the gateway keeps no state and the provider request body never
depends on the key, so every non-transport outcome is identical under any two
keys; but on transport failure the returned error message embeds the request
URL and therefore always contains the key as a substring. -/
theorem C2_amended (msgs : List ChatMessage) (k1 k2 e : String)
    (p : GeminiRequest → Except String ProviderHTTP) (resp : ProviderHTTP)
    (hp : p (ChatGo.buildRequest msgs) = .ok resp) :
    ChatGo.callGemini msgs k1 p = ChatGo.callGemini msgs k2 p ∧
    strHasSub (urlErrorString "Post" (ChatGo.apiURL k1) e) k1 = true := by
  refine ⟨?_, transportMsg_hasKey k1 e⟩
  simp [ChatGo.callGemini, hp]

/-- Witness for the amended C2 at concrete keys and a delivered response. -/
theorem C2_amended_witness :
    ChatGo.callGemini [] "KEY-ONE" helloOracle =
      ChatGo.callGemini [] "KEY-TWO" helloOracle ∧
    strHasSub (urlErrorString "Post" (ChatGo.apiURL "KEY-ONE") "boom")
      "KEY-ONE" = true :=
  C2_amended [] "KEY-ONE" "KEY-TWO" "boom" helloOracle helloResp rfl

/-- C3 counterexample: a turn with empty text is not removed — it is mapped
and appears in the normalized content sent to the provider. -/
theorem C3_counterexample :
    (Part001.buildRequest [{ sender := "user", text := "" }]).contents =
      [{ role := "user", parts := [{ text := "" }] }] ∧
    (Part001.buildRequest [{ sender := "user", text := "" }]).contents ≠ [] :=
  ⟨rfl, by decide⟩

/-- C3 amended: no empty-text filtering occurs in either variant — the
pass-through normalization maps every input turn one-for-one (empty text
included), and the primed variant keeps all turns after the legacy skip. -/
theorem C3_amended (msgs : List ChatMessage) (i : Nat) (hi : i < msgs.length) :
    (Part001.buildRequest msgs).contents.length = msgs.length ∧
    (Part001.buildRequest msgs).contents[i]? = some (mapMessage (msgs.get ⟨i, hi⟩)) ∧
    (ChatGo.buildRequest msgs).contents.length = 2 + (msgs.length - 2) := by
  refine ⟨by simp [Part001.buildRequest], ?_, ?_⟩
  · simp [Part001.buildRequest, List.getElem?_map, List.getElem?_eq_getElem hi]
  · simp [ChatGo.buildRequest]
    omega

/-- Witness for the amended C3 at a list containing an empty-text turn. -/
theorem C3_amended_witness :
    (Part001.buildRequest [⟨"user", ""⟩, ⟨"bot", "y"⟩]).contents.length = 2 ∧
    (Part001.buildRequest [⟨"user", ""⟩, ⟨"bot", "y"⟩]).contents[0]? =
      some { role := "user", parts := [{ text := "" }] } ∧
    (ChatGo.buildRequest [⟨"user", ""⟩, ⟨"bot", "y"⟩]).contents.length = 2 + (2 - 2) :=
  C3_amended [⟨"user", ""⟩, ⟨"bot", "y"⟩] 0 (by decide)

/-- Shared helper: a success-status response that parses but has no candidate,
or whose first candidate has no parts, classifies to the fixed fallback reply
with no error. -/
lemma classify_fallback (resp : ProviderHTTP) (g : GeminiResponse)
    (hs : resp.statusCode = 200) (hd : resp.decoded = .ok g)
    (hempty : g.candidates = [] ∨
      (g.candidates.head?).map (fun c => c.content.parts) = some []) :
    classifyGeminiResponse resp = .reply fallbackReply := by
  rcases hempty with hc | hh
  · simp [classifyGeminiResponse, hs, hd, hc]
  · cases hcand : g.candidates with
    | nil => simp [classifyGeminiResponse, hs, hd, hcand]
    | cons c cs =>
      rw [hcand] at hh
      simp [List.head?] at hh
      simp [classifyGeminiResponse, hs, hd, hcand, hh]

/-- C4 counterexample: the OpenAI gateway variant, on a success response that
parses with zero choices, returns an error (`no reply from AI`) — it does not
return the fixed fallback reply with no error. -/
theorem C4_counterexample :
    ChatGo.callOpenAI "hi" "key" emptyChoicesOracle = .err .noReply ∧
    ChatGo.callOpenAI "hi" "key" emptyChoicesOracle ≠ .reply fallbackReply :=
  ⟨rfl, by decide⟩

/-- C4 amended: both Gemini gateway variants return the fixed fallback reply
with no error on a parsed success response with zero candidates or an empty
first parts list; the OpenAI variant instead returns the error
`no reply from AI` when a parsed success response has zero choices. -/
theorem C4_amended (msgs : List ChatMessage) (key prompt okey : String)
    (p q : GeminiRequest → Except String ProviderHTTP)
    (t : OpenAIRequest → Except String OpenAIHTTP)
    (resp : ProviderHTTP) (g : GeminiResponse)
    (oresp : OpenAIHTTP) (o : OpenAIResponse)
    (hs : resp.statusCode = 200) (hd : resp.decoded = .ok g)
    (hempty : g.candidates = [] ∨
      (g.candidates.head?).map (fun c => c.content.parts) = some [])
    (hP : p (Part001.buildRequest msgs) = .ok resp)
    (hQ : q (ChatGo.buildRequest msgs) = .ok resp)
    (hos : oresp.statusCode = 200) (hod : oresp.decoded = .ok o)
    (hoc : o.choices = [])
    (hT : t { model := "gpt-3.5-turbo"
              messages := [{ role := "user", content := prompt }] } = .ok oresp) :
    Part001.callGemini msgs key p = .reply fallbackReply ∧
    ChatGo.callGemini msgs key q = .reply fallbackReply ∧
    ChatGo.callOpenAI prompt okey t = .err .noReply := by
  have hclass := classify_fallback resp g hs hd hempty
  refine ⟨by simp [Part001.callGemini, hP, hclass],
    by simp [ChatGo.callGemini, hQ, hclass], ?_⟩
  simp [ChatGo.callOpenAI, hT, hos, hod, hoc]

/-- Witness for the amended C4 at concrete empty-candidate and empty-choice
responses. -/
theorem C4_amended_witness :
    Part001.callGemini [] "key" emptyCandOracle = .reply fallbackReply ∧
    ChatGo.callGemini [] "key" emptyCandOracle = .reply fallbackReply ∧
    ChatGo.callOpenAI "hi" "okey" emptyChoicesOracle = .err .noReply :=
  C4_amended [] "key" "hi" "okey" emptyCandOracle emptyCandOracle
    emptyChoicesOracle emptyCandResp { candidates := [] }
    emptyChoicesResp { choices := [] }
    rfl rfl (Or.inl rfl) rfl rfl rfl rfl rfl rfl

/-- Whether a turn's text is non-empty (the drop criterion named by the
spec; no code in the repository applies it). -/
def nonEmptyText (msg : ChatMessage) : Bool :=
  !(msg.text == "")

/-- C6 counterexample: on the one-turn input whose text is empty, the
pass-through normalization does not have length `input minus empty-text
drops` — nothing is dropped, so the lengths differ. -/
theorem C6_counterexample :
    ¬ ((Part001.buildRequest [{ sender := "user", text := "" }]).contents.length =
      (([{ sender := "user", text := "" }] : List ChatMessage).filter
        nonEmptyText).length) := by decide

/-- C6 amended: for every non-empty turn sequence ending in a `user`-speaker
turn, pass-through normalization yields a sequence of exactly equal length (no
empty-text drops occur), in input order with `user → user` and every other
speaker `→ model`, and the last element's role is `user`. -/
theorem C6_amended (msgs : List ChatMessage) (i : Nat)
    (hne : msgs ≠ []) (hlast : (msgs.getLast hne).sender = "user")
    (hi : i < msgs.length) :
    (Part001.buildRequest msgs).contents.length = msgs.length ∧
    (Part001.buildRequest msgs).contents[i]? =
      some { role := if (msgs.get ⟨i, hi⟩).sender = "user" then "user" else "model"
             parts := [{ text := (msgs.get ⟨i, hi⟩).text }] } ∧
    ((Part001.buildRequest msgs).contents.getLast?).map GeminiContent.role =
      some "user" := by
  refine ⟨by simp [Part001.buildRequest], ?_, ?_⟩
  · simp [Part001.buildRequest, List.getElem?_map, List.getElem?_eq_getElem hi,
      mapMessage, List.get_eq_getElem]
  · have h1 : (Part001.buildRequest msgs).contents.getLast? =
        (msgs.getLast?).map mapMessage := by
      simp [Part001.buildRequest, List.getLast?_map]
    rw [h1, List.getLast?_eq_getLast msgs hne]
    simp [mapMessage, hlast]

/-- Witness for the amended C6 at a concrete two-turn input ending in a user
turn. -/
theorem C6_amended_witness :
    (Part001.buildRequest [⟨"bot", "b"⟩, ⟨"user", "u"⟩]).contents.length = 2 ∧
    (Part001.buildRequest [⟨"bot", "b"⟩, ⟨"user", "u"⟩]).contents[0]? =
      some { role := "model", parts := [{ text := "b" }] } ∧
    ((Part001.buildRequest [⟨"bot", "b"⟩, ⟨"user", "u"⟩]).contents.getLast?).map
      GeminiContent.role = some "user" :=
  C6_amended [⟨"bot", "b"⟩, ⟨"user", "u"⟩] 0 (by decide) rfl (by decide)
